import Mathlib

/-
Verification of the statistics layer declared in include/leveldb/statistics.h:
the ticker/histogram name catalogs, the Ticker counter class, and the
RecordTick convenience wrapper.  Machine integers are modelled as Nat/Int
with explicit reduction modulo 2^64 where the C++ uint64 arithmetic wraps.
-/

/- Ticker identifiers: the values of the C++ enum Tickers. -/

def BLOCK_CACHE_MISS : Nat := 0

def BLOCK_CACHE_HIT : Nat := 1

def BLOOM_FILTER_USEFUL : Nat := 2

def COMPACTION_KEY_DROP_NEWER_ENTRY : Nat := 3

def COMPACTION_KEY_DROP_OBSOLETE : Nat := 4

def COMPACTION_KEY_DROP_USER : Nat := 5

def NUMBER_KEYS_WRITTEN : Nat := 6

def NUMBER_KEYS_READ : Nat := 7

def BYTES_WRITTEN : Nat := 8

def BYTES_READ : Nat := 9

def NO_FILE_CLOSES : Nat := 10

def NO_FILE_OPENS : Nat := 11

def NO_FILE_ERRORS : Nat := 12

def STALL_L0_SLOWDOWN_MICROS : Nat := 13

def STALL_MEMTABLE_COMPACTION_MICROS : Nat := 14

def STALL_L0_NUM_FILES_MICROS : Nat := 15

def RATE_LIMIT_DELAY_MILLIS : Nat := 16

def NO_ITERATORS : Nat := 17

def NUMBER_MULTIGET_CALLS : Nat := 18

def NUMBER_MULTIGET_KEYS_READ : Nat := 19

def NUMBER_MULTIGET_BYTES_READ : Nat := 20

def TICKER_ENUM_MAX : Nat := 21

/- The ticker name catalog TickersNameMap, entry for entry from the source. -/

def TickersNameMap : List (Nat × String) := [
  (BLOCK_CACHE_MISS, "levledb.block.cache.miss"),
  (BLOCK_CACHE_HIT, "rocksdb.block.cache.hit"),
  (BLOOM_FILTER_USEFUL, "rocksdb.bloom.filter.useful"),
  (COMPACTION_KEY_DROP_NEWER_ENTRY, "rocksdb.compaction.key.drop.new"),
  (COMPACTION_KEY_DROP_OBSOLETE, "rocksdb.compaction.key.drop.obsolete"),
  (COMPACTION_KEY_DROP_USER, "rocksdb.compaction.key.drop.user"),
  (NUMBER_KEYS_WRITTEN, "rocksdb.number.keys.written"),
  (NUMBER_KEYS_READ, "rocksdb.number.keys.read"),
  (BYTES_WRITTEN, "rocksdb.bytes.written"),
  (BYTES_READ, "rocksdb.bytes.read"),
  (NO_FILE_CLOSES, "rocksdb.no.file.closes"),
  (NO_FILE_OPENS, "rocksdb.no.file.opens"),
  (NO_FILE_ERRORS, "rocksdb.no.file.errors"),
  (STALL_L0_SLOWDOWN_MICROS, "rocksdb.l0.slowdown.micros"),
  (STALL_MEMTABLE_COMPACTION_MICROS, "rocksdb.memtable.compaction.micros"),
  (STALL_L0_NUM_FILES_MICROS, "rocksdb.l0.num.files.stall.micros"),
  (RATE_LIMIT_DELAY_MILLIS, "rocksdb.rate.limit.dleay.millis"),
  (NO_ITERATORS, "rocksdb.num.iterators"),
  (NUMBER_MULTIGET_CALLS, "rocksdb.number.multiget.get"),
  (NUMBER_MULTIGET_KEYS_READ, "rocksdb.number.multiget.keys.read"),
  (NUMBER_MULTIGET_BYTES_READ, "rocksdb.number.multiget.bytes.read")]

/- Histogram identifiers: the values of the C++ enum Histograms. -/

def DB_GET : Nat := 0

def DB_WRITE : Nat := 1

def COMPACTION_TIME : Nat := 2

def TABLE_SYNC_MICROS : Nat := 3

def COMPACTION_OUTFILE_SYNC_MICROS : Nat := 4

def WAL_FILE_SYNC_MICROS : Nat := 5

def MANIFEST_FILE_SYNC_MICROS : Nat := 6

def TABLE_OPEN_IO_MICROS : Nat := 7

def DB_MULTIGET : Nat := 8

def HISTOGRAM_ENUM_MAX : Nat := 9

/- The histogram name catalog HistogramsNameMap, entry for entry from the source. -/

def HistogramsNameMap : List (Nat × String) := [
  (DB_GET, "rocksdb.db.get.micros"),
  (DB_WRITE, "rocksdb.db.write.micros"),
  (COMPACTION_TIME, "rocksdb.compaction.times.micros"),
  (TABLE_SYNC_MICROS, "rocksdb.table.sync.micros"),
  (COMPACTION_OUTFILE_SYNC_MICROS, "rocksdb.compaction.outfile.sync.micros"),
  (WAL_FILE_SYNC_MICROS, "rocksdb.wal.file.sync.micros"),
  (MANIFEST_FILE_SYNC_MICROS, "rocksdb.manifest.file.sync.micros"),
  (TABLE_OPEN_IO_MICROS, "rocksdb.table.open.io.micros"),
  (DB_MULTIGET, "rocksdb.db.multiget.micros")]

/- Predicates on metric names: nonempty, all characters lowercase letters,
digits or dots, and dot-separated with no empty component. -/

def isNameChar (c : Char) : Bool :=
  (97 ≤ c.toNat && c.toNat ≤ 122) || (48 ≤ c.toNat && c.toNat ≤ 57) || c.toNat = 46

def isDotChar (c : Char) : Bool := c.toNat = 46

def noDoubleDot : List Char → Bool
  | c1 :: c2 :: rest => !(isDotChar c1 && isDotChar c2) && noDoubleDot (c2 :: rest)
  | _ => true

def lastIsDot : List Char → Bool
  | [] => false
  | [c] => isDotChar c
  | _ :: rest => lastIsDot rest

def isMetricName (s : String) : Bool :=
  match s.data with
  | [] => false
  | c :: rest =>
      (c :: rest).all isNameChar && !isDotChar c &&
      !lastIsDot (c :: rest) && noDoubleDot (c :: rest)

/- The Ticker class: a uint64 counter starting at zero.  The field holds the
mathematical value of the C++ count_, an unsigned 64-bit integer; both
recordTick overloads wrap modulo 2^64 exactly as the C++ arithmetic does.
The overload taking a count models the C++ signature recordTick(int count):
the argument is a signed integer, converted to uint64 before the addition. -/

def UINT64_LIMIT : Nat := 2 ^ 64

structure Ticker where
  count_ : Nat

def Ticker.new : Ticker := ⟨0⟩

def Ticker.recordTickOne (t : Ticker) : Ticker :=
  ⟨(t.count_ + 1) % UINT64_LIMIT⟩

def Ticker.recordTick (t : Ticker) (count : Int) : Ticker :=
  ⟨(((t.count_ : Int) + count) % (UINT64_LIMIT : Int)).toNat⟩

def Ticker.getCount (t : Ticker) : Nat := t.count_

/- The abstract Statistics interface is consumed by RecordTick only through
its virtual recordTick method; a Statistics object is modelled by the log of
recordTick(ticker, count) calls it has received, so that "forwards exactly
one call" is directly observable. -/

structure StatisticsState where
  tickerCalls : List (Nat × Nat)

def StatisticsState.recordTick (s : StatisticsState) (ticker count : Nat) :
    StatisticsState :=
  ⟨s.tickerCalls ++ [(ticker, count)]⟩

/- The RecordTick convenience wrapper.  The two assert statements of the
source are modelled as explicit checks, active when assertsEnabled is true
(the C++ assert macro is compiled in unless NDEBUG is defined); a failed
assertion aborts the call, modelled as Except.error ().  The checks appear
in source order: histograms first, then tickers, then the null test. -/

def RecordTick (assertsEnabled : Bool) (statistics : Option StatisticsState)
    (ticker : Nat) (count : Nat) : Except Unit (Option StatisticsState) :=
  if assertsEnabled && !(HistogramsNameMap.length == HISTOGRAM_ENUM_MAX - 1) then
    Except.error ()
  else if assertsEnabled && !(TickersNameMap.length == TICKER_ENUM_MAX - 1) then
    Except.error ()
  else
    match statistics with
    | some s => Except.ok (some (s.recordTick ticker count))
    | none => Except.ok none

/- The count argument of RecordTick defaults to 1 in the source. -/

def RecordTickDefault (assertsEnabled : Bool) (statistics : Option StatisticsState)
    (ticker : Nat) : Except Unit (Option StatisticsState) :=
  RecordTick assertsEnabled statistics ticker 1

/-- Modelled from the spec: the concrete histogram implementation behind the
abstract Histogram interface of statistics.h is not part of this repository
slice (the header only declares the pure-virtual interface), so the engine
state is modelled from spec sections 4.3 and 8: counts bucketed over a fixed
ascending list of bucket upper bounds, a running sum of samples, a running sum
of squared samples, and a total sample count. -/
structure HistogramEngine where
  bucketLimits : List Nat
  bucketCounts : List Nat
  runningSum : Nat
  sumSquares : Nat
  totalSamples : Nat

/-- Modelled from the spec: a monotonic, roughly geometric bucket-boundary
scheme from 1 up to a large practical ceiling (the spec leaves the exact
scheme open, requiring only a monotonic deterministic choice). -/
def defaultBucketLimits : List Nat := (List.range 64).map (fun i => 2 ^ i)

def HistogramEngine.new : HistogramEngine :=
  ⟨defaultBucketLimits, List.replicate defaultBucketLimits.length 0, 0, 0, 0⟩

/-- Modelled from the spec: increment the bucket whose range contains the
value; values beyond the last configured boundary are clamped into the last
bucket. -/
def bumpBucket : List Nat → List Nat → Nat → List Nat
  | [_], c :: cs, _ => (c + 1) :: cs
  | l :: ls, c :: cs, v => if v ≤ l then (c + 1) :: cs else c :: bumpBucket ls cs v
  | _, cs, _ => cs

/-- Modelled from the spec: add(value) increments the containing bucket,
accumulates value into the running sum and its square into the running sum of
squares, and increments the total sample count. -/
def HistogramEngine.add (h : HistogramEngine) (value : Nat) : HistogramEngine :=
  ⟨h.bucketLimits, bumpBucket h.bucketLimits h.bucketCounts value,
   h.runningSum + value, h.sumSquares + value * value, h.totalSamples + 1⟩

/-- Modelled from the spec: clear() resets all buckets, the running sums and
the sample count to zero. -/
def HistogramEngine.clear (h : HistogramEngine) : HistogramEngine :=
  ⟨h.bucketLimits, List.replicate h.bucketCounts.length 0, 0, 0, 0⟩

/-- Modelled from the spec: walk buckets in ascending order accumulating
counts until the running total reaches the threshold, then interpolate
linearly within the identified bucket between its lower and upper bounds. -/
def percentileWalk : List Nat → List Nat → Nat → Rat → Nat → Rat
  | l :: ls, c :: cs, lower, threshold, acc =>
      if threshold ≤ ((acc + c : Nat) : Rat) then
        if c = 0 then (l : Rat)
        else (lower : Rat) + ((l : Rat) - (lower : Rat)) * ((threshold - (acc : Rat)) / (c : Rat))
      else percentileWalk ls cs l threshold (acc + c)
  | _, _, lower, _, _ => (lower : Rat)

/-- Modelled from the spec: Percentile(p) returns 0 when no samples have been
recorded (empty-histogram convention, not an error); otherwise it walks the
buckets towards the threshold p/100 times the total sample count. -/
def HistogramEngine.Percentile (h : HistogramEngine) (p : Rat) : Rat :=
  if h.totalSamples = 0 then 0
  else percentileWalk h.bucketLimits h.bucketCounts 0 (p / 100 * (h.totalSamples : Rat)) 0

/-- Modelled from the spec: Median() is Percentile(50). -/
def HistogramEngine.Median (h : HistogramEngine) : Rat := h.Percentile 50

/-- Modelled from the spec: Average() is runningSum / totalSamples, and 0
when no samples have been recorded. -/
def HistogramEngine.Average (h : HistogramEngine) : Rat :=
  if h.totalSamples = 0 then 0 else (h.runningSum : Rat) / (h.totalSamples : Rat)

/-- Modelled from the spec: the variance estimate
max(0, sumSquares/totalSamples - average^2), and 0 without samples. -/
def HistogramEngine.variance (h : HistogramEngine) : Rat :=
  if h.totalSamples = 0 then 0
  else max 0 ((h.sumSquares : Rat) / (h.totalSamples : Rat) - (h.Average) ^ 2)

/-- Modelled from the spec: StandardDeviation() is the square root of the
guarded variance; the square root is taken in the real numbers. -/
noncomputable def HistogramEngine.StandardDeviation (h : HistogramEngine) : Real :=
  Real.sqrt ((h.variance : Rat) : Real)

/-- Modelled from the spec: CreateDBStatistics is only declared in the header
(its definition is not in this repository slice); per spec sections 3 and 6
the registry it returns owns one Ticker per ticker identifier and one
histogram engine per histogram identifier, all freshly constructed. -/
structure StatisticsRegistry where
  tickers : Nat → Ticker
  histograms : Nat → HistogramEngine

def CreateDBStatistics : StatisticsRegistry :=
  ⟨fun _ => Ticker.new, fun _ => HistogramEngine.new⟩

def StatisticsRegistry.getTickerCount (r : StatisticsRegistry) (t : Nat) : Nat :=
  (r.tickers t).getCount

/-- Claim C1: the claim asserts TickersNameMap.size() = TICKER_ENUM_MAX - 1 and
HistogramsNameMap.size() = HISTOGRAM_ENUM_MAX - 1 so that the assertions in
RecordTick pass.  In fact both catalogs have exactly ENUM_MAX entries (one per
identifier, the sentinel itself has no entry), so both asserted equalities are
false and every RecordTick call in an assert-enabled build fails the first
assertion: this theorem evaluates the catalog sizes and a concrete call. -/
theorem c1_assertions_fire :
    TickersNameMap.length = TICKER_ENUM_MAX ∧
    HistogramsNameMap.length = HISTOGRAM_ENUM_MAX ∧
    TickersNameMap.length ≠ TICKER_ENUM_MAX - 1 ∧
    HistogramsNameMap.length ≠ HISTOGRAM_ENUM_MAX - 1 ∧
    RecordTick true (some ⟨[]⟩) BLOCK_CACHE_MISS 1 = Except.error () :=
  ⟨rfl, rfl, by decide, by decide, rfl⟩

/-- Claim C2: every ticker identifier below TICKER_ENUM_MAX has exactly one
entry in TickersNameMap and every histogram identifier below
HISTOGRAM_ENUM_MAX has exactly one entry in HistogramsNameMap; the entry
counts equal TICKER_ENUM_MAX and HISTOGRAM_ENUM_MAX respectively, and every
name is a nonempty lowercase dot-separated string. -/
theorem c2_catalog_complete :
    (∀ t, t < TICKER_ENUM_MAX →
      (TickersNameMap.filter (fun e => e.fst == t)).length = 1) ∧
    (∀ h, h < HISTOGRAM_ENUM_MAX →
      (HistogramsNameMap.filter (fun e => e.fst == h)).length = 1) ∧
    TickersNameMap.length = TICKER_ENUM_MAX ∧
    HistogramsNameMap.length = HISTOGRAM_ENUM_MAX ∧
    TickersNameMap.all (fun e => isMetricName e.snd) = true ∧
    HistogramsNameMap.all (fun e => isMetricName e.snd) = true := by
  refine ⟨by decide, by decide, rfl, rfl, by decide, by decide⟩

/-- Claim C2 witness: the catalog-uniqueness statement instantiated at the
concrete identifiers BYTES_READ and DB_WRITE. -/
theorem c2_catalog_complete_witness :
    BYTES_READ < TICKER_ENUM_MAX ∧ DB_WRITE < HISTOGRAM_ENUM_MAX ∧
    (TickersNameMap.filter (fun e => e.fst == BYTES_READ)).length = 1 ∧
    (HistogramsNameMap.filter (fun e => e.fst == DB_WRITE)).length = 1 :=
  ⟨by decide, by decide,
   c2_catalog_complete.1 BYTES_READ (by decide),
   c2_catalog_complete.2.1 DB_WRITE (by decide)⟩

/-- Claim C3 counterexample: as stated the claim fails on the code as written,
because the two catalog-size assertions are executed before the null test and
both are false (see C1), so in an assert-enabled build the call aborts instead
of returning normally. -/
theorem c3_counterexample :
    RecordTick true none BLOCK_CACHE_MISS 1 = Except.error () := rfl

/-- Claim C3 (amended): with assertions compiled out (NDEBUG), RecordTick with
a null statistics handle returns normally for every ticker identifier and
count, forwards no recordTick call and alters no state: the result is ok with
the handle still absent. -/
theorem c3_null_noop (ticker count : Nat) :
    RecordTick false none ticker count = Except.ok none := rfl

/-- Claim C6 counterexample: as stated the claim fails on the code as written,
because in an assert-enabled build the miswritten catalog-size assertions (see
C1) abort the call before any forwarding happens, so no recordTick call is
made even with a non-null handle. -/
theorem c6_counterexample :
    RecordTick true (some ⟨[]⟩) BLOCK_CACHE_MISS 5 = Except.error () := rfl

/-- Claim C6 (amended): with assertions compiled out (NDEBUG), whenever the
statistics handle is non-null RecordTick forwards exactly one
recordTick(ticker, count) call with the same ticker identifier and the same
count (the call log grows by exactly that one entry), and the count argument
defaults to 1 when omitted. -/
theorem c6_forwarding (log : List (Nat × Nat)) (ticker count : Nat) :
    RecordTick false (some ⟨log⟩) ticker count =
      Except.ok (some ⟨log ++ [(ticker, count)]⟩) ∧
    RecordTickDefault false (some ⟨log⟩) ticker =
      Except.ok (some ⟨log ++ [(ticker, 1)]⟩) :=
  ⟨rfl, rfl⟩

/-- Claim C9: the identifier-to-name mappings are injective: the name strings
of TickersNameMap are pairwise distinct, and so are those of
HistogramsNameMap, so exported metric names never collide. -/
theorem c9_names_nodup :
    (TickersNameMap.map Prod.snd).Nodup ∧
    (HistogramsNameMap.map Prod.snd).Nodup := by
  decide

/-- Claim C10: both catalogs are listed in identifier order with no gaps: the
identifiers of TickersNameMap are exactly 0, 1, ..., TICKER_ENUM_MAX - 1 in
order, and those of HistogramsNameMap are exactly 0, 1, ...,
HISTOGRAM_ENUM_MAX - 1 in order, so positional lookup by identifier yields
the correct name. -/
theorem c10_positional_order :
    TickersNameMap.map Prod.fst = List.range TICKER_ENUM_MAX ∧
    HistogramsNameMap.map Prod.fst = List.range HISTOGRAM_ENUM_MAX := by
  decide

theorem recordTick_natCast (c d : Nat) :
    (Ticker.mk c).recordTick (d : Int) = Ticker.mk ((c + d) % UINT64_LIMIT) := by
  unfold Ticker.recordTick UINT64_LIMIT
  congr 1

theorem ticker_foldl_count (ds : List Nat) (c : Nat) (hc : c < UINT64_LIMIT) :
    (ds.foldl (fun t d => t.recordTick (d : Int)) (Ticker.mk c)).count_ =
      (c + ds.sum) % UINT64_LIMIT := by
  induction ds generalizing c with
  | nil =>
      simp only [List.foldl_nil, List.sum_nil, Nat.add_zero]
      exact (Nat.mod_eq_of_lt hc).symm
  | cons d rest ih =>
      rw [List.foldl_cons, recordTick_natCast,
        ih ((c + d) % UINT64_LIMIT) (Nat.mod_lt _ (by norm_num [UINT64_LIMIT])),
        Nat.mod_add_mod, List.sum_cons, Nat.add_assoc]

/-- Claim C4: starting from a freshly constructed Ticker, sequentially
applying the increments d1..dn through recordTick (each representable in the
int parameter of the C++ overload) leaves getCount equal to the sum of the
increments reduced modulo 2^64. -/
theorem c4_ticker_sum (ds : List Nat) (hd : ∀ d ∈ ds, d < 2 ^ 31) :
    (ds.foldl (fun t d => t.recordTick (d : Int)) Ticker.new).getCount =
      ds.sum % UINT64_LIMIT := by
  have h := ticker_foldl_count ds 0 (by norm_num [UINT64_LIMIT])
  simpa [Ticker.new, Ticker.getCount] using h

/-- Claim C4 witness: the sum theorem at the concrete increment sequence
3, 5, 1, whose running count is 9. -/
theorem c4_ticker_sum_witness :
    (∀ d ∈ [3, 5, 1], d < 2 ^ 31) ∧
    ([3, 5, 1].foldl (fun t d => t.recordTick (d : Int)) Ticker.new).getCount =
      [3, 5, 1].sum % UINT64_LIMIT :=
  ⟨by decide, c4_ticker_sum [3, 5, 1] (by decide)⟩

/-- Claim C5 counterexample: the claim that getCount never decreases across a
recordTick call fails on the code at explicit inputs: the int-typed overload
called with count -1 on a ticker holding 5 drops the count to 4, and the
no-argument overload on a ticker holding 2^64 - 1 wraps the count to 0. -/
theorem c5_counterexample :
    ¬ (Ticker.mk 5).getCount ≤ ((Ticker.mk 5).recordTick (-1)).getCount ∧
    ¬ (Ticker.mk (2 ^ 64 - 1)).getCount ≤
        (Ticker.mk (2 ^ 64 - 1)).recordTickOne.getCount := by
  refine ⟨?_, ?_⟩ <;> decide

/-- Claim C5 (amended): a Ticker is monotone provided the count argument is
nonnegative and the addition does not wrap modulo 2^64: under those
hypotheses, getCount after either recordTick overload is at least getCount
before. -/
theorem c5_monotone_amended (t : Ticker) (c : Int) (hc : 0 ≤ c)
    (hnw : (t.count_ : Int) + c < (UINT64_LIMIT : Int))
    (hnw1 : t.count_ + 1 < UINT64_LIMIT) :
    t.getCount ≤ (t.recordTick c).getCount ∧
    t.getCount ≤ t.recordTickOne.getCount := by
  constructor
  · show t.count_ ≤ (((t.count_ : Int) + c) % (UINT64_LIMIT : Int)).toNat
    rw [Int.emod_eq_of_lt (by omega) hnw]
    omega
  · show t.count_ ≤ (t.count_ + 1) % UINT64_LIMIT
    rw [Nat.mod_eq_of_lt hnw1]
    omega

/-- Claim C5 witness: the amended monotonicity statement at the concrete
ticker state 2 and count 7. -/
theorem c5_monotone_witness :
    (0 : Int) ≤ 7 ∧
    ((Ticker.mk 2).count_ : Int) + 7 < (UINT64_LIMIT : Int) ∧
    (Ticker.mk 2).count_ + 1 < UINT64_LIMIT ∧
    ((Ticker.mk 2).getCount ≤ ((Ticker.mk 2).recordTick 7).getCount ∧
     (Ticker.mk 2).getCount ≤ (Ticker.mk 2).recordTickOne.getCount) :=
  ⟨by norm_num, by norm_num [UINT64_LIMIT], by norm_num [UINT64_LIMIT],
   c5_monotone_amended (Ticker.mk 2) 7 (by norm_num)
     (by norm_num [UINT64_LIMIT]) (by norm_num [UINT64_LIMIT])⟩

/-- Claim C7: a freshly constructed Ticker holds count 0 before any
recordTick call, and the freshly built registry returned by the factory
exposes count 0 for every ticker identifier. -/
theorem c7_fresh_zero :
    Ticker.new.getCount = 0 ∧
    ∀ id, CreateDBStatistics.getTickerCount id = 0 :=
  ⟨rfl, fun _ => rfl⟩

/-- Claim C8: for a histogram engine holding no samples, Median, every
Percentile with 0 <= p <= 100, Average and StandardDeviation all return 0;
the empty histogram is not an error and every operation returns. -/
theorem c8_empty_histogram (h : HistogramEngine) (he : h.totalSamples = 0) :
    h.Median = 0 ∧
    (∀ p : Rat, 0 ≤ p → p ≤ 100 → h.Percentile p = 0) ∧
    h.Average = 0 ∧
    h.StandardDeviation = 0 := by
  have hp : ∀ p : Rat, h.Percentile p = 0 := by
    intro p
    unfold HistogramEngine.Percentile
    rw [if_pos he]
  refine ⟨hp 50, fun p _ _ => hp p, ?_, ?_⟩
  · unfold HistogramEngine.Average
    rw [if_pos he]
  · unfold HistogramEngine.StandardDeviation HistogramEngine.variance
    rw [if_pos he]
    simp

/-- Claim C8 witness: the empty-histogram statement at the freshly
constructed engine, instantiated at the 95th percentile. -/
theorem c8_empty_histogram_witness :
    HistogramEngine.new.totalSamples = 0 ∧
    HistogramEngine.new.Percentile 95 = 0 :=
  ⟨rfl, (c8_empty_histogram HistogramEngine.new rfl).2.1 95
    (by norm_num) (by norm_num)⟩
